import Mathlib

/-
Verification of the DQ rule derivation workflow (gaxl-smart-rnd).

Shallow embedding of the rule validation engine
(src/agents/rule_validation_agent.py), the rule refiner
(src/workflow/nodes.py, refine_rules_node), the workflow controller loop
(src/workflow/edges.py + validate_rules_node), the rule proposer adapter
normalization (src/agents/rule_derivation_agent.py, _ensure_rule_fields)
and the attribute prioritizer (src/workflow/nodes.py,
select_priority_attributes_node).

Modelling conventions:
  - pandas cell values are modelled by Cell (null = NaN/None, str, num);
    Python floats are modelled by the rationals.
  - a pandas DataFrame is a list of column names plus a list of rows,
    each row an association list from column name to Cell.
  - Python round(x, k) is modelled by rounding x * 10^k to the nearest
    integer (Mathlib round, ties up; Python uses ties-to-even on floats,
    the difference only shows at exact ties which the code never hits on
    the values of interest).
  - the regular-expression fragments used by the extractors
    (BETWEEN ... AND ..., comparison bounds, IN (...), MATCHES/REGEXP,
    LENGTH bounds) are implemented directly as scanners over the
    character list, with the same leftmost-match semantics.
  - Python re pattern compilation/matching for FORMAT_PATTERN and the
    eval of custom rule expressions call into libraries outside this
    repository; they are abstracted as the fields of PyEnv and quantified
    over in the theorems.
  - exceptions are modelled with Except (validate_rule wraps its body in
    try/except; validateRuleE takes the body as an Except-valued
    argument).
-/

/-- Single-quote character (built by code point to keep source text clean). -/
def squoteChar : Char := Char.ofNat 39

/-- Double-quote character (built by code point). -/
def dquoteChar : Char := Char.ofNat 34

/-- String consisting of one single quote. -/
def squoteStr : String := String.singleton squoteChar

/-- A pandas cell value: NaN/None, a Python string, or a Python number. -/
inductive Cell where
  | null
  | str (s : String)
  | num (q : ℚ)
deriving DecidableEq

/-- A row of the sample relation: association list column-name to value. -/
def Row : Type := List (String × Cell)

instance : DecidableEq Row := by
  unfold Row
  infer_instance

/-- Value of a row at a column; a column missing from the row reads as NaN
(in pandas every row of a DataFrame has every column, possibly NaN). -/
def rowGet (r : Row) (a : String) : Cell :=
  match List.lookup a r with
  | some c => c
  | none => Cell.null

/-- In-memory model of a pandas DataFrame. -/
structure DataFrame where
  columns : List String
  rows : List Row
deriving DecidableEq

/-- Model of pd.DataFrame(): no columns, no rows. -/
def emptyDataFrame : DataFrame := ⟨[], []⟩

/-- Model of pandas isna on a cell. -/
def cellIsNa : Cell → Bool
  | Cell.null => true
  | _ => false

/-- Model of Python str() on a cell, as used by astype(str): NaN renders
as the string nan; numbers render exactly for integers (the non-integer
rendering num/den abstracts the float decimal form; no theorem below
depends on it). -/
def cellToStr : Cell → String
  | Cell.null => "nan"
  | Cell.str s => s
  | Cell.num q =>
      if q.den = 1 then toString q.num
      else toString q.num ++ "/" ++ toString q.den

/-- Digits of a character list folded into a natural number. -/
def charsToNat (cs : List Char) : ℕ :=
  cs.foldl (fun acc c => acc * 10 + (c.toNat - 48)) 0

/-- Strip leading and trailing whitespace from a character list
(list-level model of str.strip). -/
def listTrim (cs : List Char) : List Char :=
  ((cs.dropWhile Char.isWhitespace).reverse.dropWhile Char.isWhitespace).reverse

/-- The rational with integer digits ds1 and fractional digits ds2,
built with mkRat (equal to ds1 + ds2 / 10 ^ length ds2). -/
def digitsToRat (ds1 ds2 : List Char) : ℚ :=
  mkRat ((charsToNat ds1 : ℤ) * (10 : ℤ) ^ ds2.length + (charsToNat ds2 : ℤ))
    ((10 : ℕ) ^ ds2.length)

/-- Parse a decimal string to a rational: optional sign, digits, optional
single dot (model of Python float(s), without exponent/inf/nan forms;
those corners do not affect any claim, since every parse result is
clamped or bound-checked downstream). -/
def parseDecimal (s : String) : Option ℚ :=
  let cs := listTrim s.toList
  let (neg, cs) :=
    match cs with
    | c :: rest =>
        if c = Char.ofNat 45 then (true, rest)
        else if c = Char.ofNat 43 then (false, rest)
        else (false, cs)
    | [] => (false, cs)
  let (ds1, cs) := cs.span Char.isDigit
  let (ds2, cs) :=
    match cs with
    | c :: rest => if c = Char.ofNat 46 then rest.span Char.isDigit else ([], cs)
    | [] => ([], cs)
  if cs = [] ∧ (ds1 ≠ [] ∨ ds2 ≠ []) then
    some (if neg then -(digitsToRat ds1 ds2) else digitsToRat ds1 ds2)
  else
    none

/-- Model of pd.to_numeric(col, errors=coerce) on one cell: numbers pass
through, numeric strings parse, everything else coerces to NaN (none). -/
def toNumeric : Cell → Option ℚ
  | Cell.null => none
  | Cell.num q => some q
  | Cell.str s => parseDecimal s

/-- Model of round(x, k): round x*10^k to the nearest integer, divide back. -/
def roundTo (k : ℕ) (x : ℚ) : ℚ :=
  ((round (x * (10 : ℚ) ^ k) : ℤ) : ℚ) / (10 : ℚ) ^ k

/- Scanners implementing the regular-expression fragments used by the
extractors of RuleValidationAgent. Each search function has re.search
semantics: try the pattern at each successive start position, return the
first success. -/

/-- Case-insensitive keyword match at the head; returns the rest on success. -/
def dropKeywordCI : List Char → List Char → Option (List Char)
  | [], cs => some cs
  | _ :: _, [] => none
  | k :: ks, c :: cs => if k.toLower = c.toLower then dropKeywordCI ks cs else none

/-- Case-sensitive literal match at the head; returns the rest on success. -/
def dropLit : List Char → List Char → Option (List Char)
  | [], cs => some cs
  | _ :: _, [] => none
  | k :: ks, c :: cs => if k = c then dropLit ks cs else none

/-- Require at least one whitespace character, drop all leading whitespace. -/
def dropWs1 (cs : List Char) : Option (List Char) :=
  match cs with
  | c :: rest => if c.isWhitespace then some (rest.dropWhile Char.isWhitespace) else none
  | [] => none

/-- Drop any leading whitespace. -/
def dropWs0 (cs : List Char) : List Char :=
  cs.dropWhile Char.isWhitespace

/-- Match one number of the shape digits, optional dot, optional digits
(the regex fragment of digits then an optional dot then more digits);
returns its rational value and the rest. -/
def numberToken (cs : List Char) : Option (ℚ × List Char) :=
  let (ds1, rest1) := cs.span Char.isDigit
  if ds1 = [] then none
  else
    let (ds2, rest2) :=
      match rest1 with
      | c :: r => if c = Char.ofNat 46 then r.span Char.isDigit else ([], rest1)
      | [] => ([], rest1)
    some (digitsToRat ds1 ds2, rest2)

/-- Match one or more digits; returns their value and the rest. -/
def natToken (cs : List Char) : Option (ℕ × List Char) :=
  let (ds, rest) := cs.span Char.isDigit
  if ds = [] then none else some (charsToNat ds, rest)

/-- Attempt the full BETWEEN number AND number pattern at the head
(keywords case-insensitive, one-or-more whitespace separators). -/
def tryBetweenRat (cs : List Char) : Option (ℚ × ℚ) := do
  let cs ← dropKeywordCI "BETWEEN".toList cs
  let cs ← dropWs1 cs
  let (lo, cs) ← numberToken cs
  let cs ← dropWs1 cs
  let cs ← dropKeywordCI "AND".toList cs
  let cs ← dropWs1 cs
  let (hi, _) ← numberToken cs
  some (lo, hi)

/-- Search for the BETWEEN pattern anywhere in the text (leftmost match). -/
def searchBetweenRat : List Char → Option (ℚ × ℚ)
  | [] => none
  | c :: rest =>
      match tryBetweenRat (c :: rest) with
      | some p => some p
      | none => searchBetweenRat rest

/-- Attempt a comparison bound at the head: the symbol, an optional
equals sign, optional whitespace, then a number. -/
def tryCmpRat (sym : Char) (cs : List Char) : Option ℚ := do
  let cs ←
    match cs with
    | c :: rest => if c = sym then some rest else none
    | [] => none
  let cs :=
    match cs with
    | c :: rest => if c = Char.ofNat 61 then rest else c :: rest
    | [] => []
  let (v, _) ← numberToken (dropWs0 cs)
  some v

/-- Search for a comparison bound anywhere in the text. -/
def searchCmpRat (sym : Char) : List Char → Option ℚ
  | [] => none
  | c :: rest =>
      match tryCmpRat sym (c :: rest) with
      | some v => some v
      | none => searchCmpRat sym rest

/-- Attempt BETWEEN nat AND nat at the head (integer groups, as in the
LENGTH bounds regex). -/
def tryBetweenNat (cs : List Char) : Option (ℕ × ℕ) := do
  let cs ← dropKeywordCI "BETWEEN".toList cs
  let cs ← dropWs1 cs
  let (lo, cs) ← natToken cs
  let cs ← dropWs1 cs
  let cs ← dropKeywordCI "AND".toList cs
  let cs ← dropWs1 cs
  let (hi, _) ← natToken cs
  some (lo, hi)

/-- Search for BETWEEN nat AND nat anywhere in the text. -/
def searchBetweenNat : List Char → Option (ℕ × ℕ)
  | [] => none
  | c :: rest =>
      match tryBetweenNat (c :: rest) with
      | some p => some p
      | none => searchBetweenNat rest

/-- Attempt an integer comparison bound at the head. -/
def tryCmpNat (sym : Char) (cs : List Char) : Option ℕ := do
  let cs ←
    match cs with
    | c :: rest => if c = sym then some rest else none
    | [] => none
  let cs :=
    match cs with
    | c :: rest => if c = Char.ofNat 61 then rest else c :: rest
    | [] => []
  let (v, _) ← natToken (dropWs0 cs)
  some v

/-- Search for an integer comparison bound anywhere in the text. -/
def searchCmpNat (sym : Char) : List Char → Option ℕ
  | [] => none
  | c :: rest =>
      match tryCmpNat sym (c :: rest) with
      | some v => some v
      | none => searchCmpNat sym rest

/-- Search for the keyword LENGTH (case-insensitive) and then apply the
given search to the text after it; the lazy gap of the LENGTH regexes is
realized by the inner search taking the earliest following match, and by
advancing the LENGTH occurrence when nothing follows it. -/
def searchAfterLength (inner : List Char → Option α) : List Char → Option α
  | [] => none
  | c :: rest =>
      match dropKeywordCI "LENGTH".toList (c :: rest) with
      | some after =>
          match inner after with
          | some v => some v
          | none => searchAfterLength inner rest
      | none => searchAfterLength inner rest

/-- Attempt MATCHES or REGEXP, optional whitespace, then a quoted chunk
(either quote opens, one or more characters that are neither quote,
either quote closes). -/
def tryMatchesQuoted (cs : List Char) : Option String := do
  let cs ←
    match dropKeywordCI "MATCHES".toList cs with
    | some r => some r
    | none => dropKeywordCI "REGEXP".toList cs
  let cs := dropWs0 cs
  let cs ←
    match cs with
    | c :: rest => if c = squoteChar ∨ c = dquoteChar then some rest else none
    | [] => none
  let (body, cs) := cs.span (fun c => ¬ (c = squoteChar ∨ c = dquoteChar))
  if body = [] then none
  else
    match cs with
    | c :: _ => if c = squoteChar ∨ c = dquoteChar then some (String.mk body) else none
    | [] => none

/-- Search for the MATCHES/REGEXP quoted pattern anywhere in the text. -/
def searchMatchesQuoted : List Char → Option String
  | [] => none
  | c :: rest =>
      match tryMatchesQuoted (c :: rest) with
      | some s => some s
      | none => searchMatchesQuoted rest

/-- Attempt the literal .str.match( then optional r then a quoted chunk. -/
def tryStrMatchQuoted (cs : List Char) : Option String := do
  let cs ← dropLit ".str.match(".toList cs
  let cs :=
    match cs with
    | c :: rest => if c = Char.ofNat 114 then rest else c :: rest
    | [] => []
  let cs ←
    match cs with
    | c :: rest => if c = squoteChar ∨ c = dquoteChar then some rest else none
    | [] => none
  let (body, cs) := cs.span (fun c => ¬ (c = squoteChar ∨ c = dquoteChar))
  if body = [] then none
  else
    match cs with
    | c :: _ => if c = squoteChar ∨ c = dquoteChar then some (String.mk body) else none
    | [] => none

/-- Search for the .str.match pattern anywhere in the text. -/
def searchStrMatchQuoted : List Char → Option String
  | [] => none
  | c :: rest =>
      match tryStrMatchQuoted (c :: rest) with
      | some s => some s
      | none => searchStrMatchQuoted rest

/-- Attempt IN, optional whitespace, open paren, one or more non-close
characters, close paren; returns the captured characters. -/
def tryInParen (cs : List Char) : Option (List Char) := do
  let cs ← dropKeywordCI "IN".toList cs
  let cs := dropWs0 cs
  let cs ←
    match cs with
    | c :: rest => if c = Char.ofNat 40 then some rest else none
    | [] => none
  let (body, cs) := cs.span (fun c => c ≠ Char.ofNat 41)
  if body = [] then none
  else
    match cs with
    | c :: _ => if c = Char.ofNat 41 then some body else none
    | [] => none

/-- Search for the IN (...) capture anywhere in the text. -/
def searchInParen : List Char → Option (List Char)
  | [] => none
  | c :: rest =>
      match tryInParen (c :: rest) with
      | some b => some b
      | none => searchInParen rest

/-- Model of re.findall over the captured value list: scan left to right
for a single-quoted chunk, a double-quoted chunk or a run of digits;
empty quoted chunks are dropped (the any(v) filter in the source). -/
def findValueTokens : List Char → List String
  | [] => []
  | c :: rest =>
      if c = squoteChar then
        match h : rest.dropWhile (fun x => !(x == squoteChar)) with
        | _ :: rest3 =>
            let body := rest.takeWhile (fun x => !(x == squoteChar))
            if body = [] then findValueTokens rest3
            else String.mk body :: findValueTokens rest3
        | [] => findValueTokens rest
      else if c = dquoteChar then
        match h : rest.dropWhile (fun x => !(x == dquoteChar)) with
        | _ :: rest3 =>
            let body := rest.takeWhile (fun x => !(x == dquoteChar))
            if body = [] then findValueTokens rest3
            else String.mk body :: findValueTokens rest3
        | [] => findValueTokens rest
      else if c.isDigit then
        let ds := rest.takeWhile Char.isDigit
        String.mk (c :: ds) :: findValueTokens (rest.dropWhile Char.isDigit)
      else
        findValueTokens rest
termination_by cs => cs.length
decreasing_by
  all_goals
    have hdw : ∀ (p : Char → Bool) (l : List Char), (l.dropWhile p).length ≤ l.length := by
      intro p l
      induction l with
      | nil => simp [List.dropWhile]
      | cons a t ih =>
          simp only [List.dropWhile]
          split
          · exact Nat.le_succ_of_le ih
          · simp
    simp only [List.length_cons]
    first
    | (have h2 := hdw (fun x => !(x == squoteChar)) rest
       rw [h] at h2
       simp only [List.length_cons] at h2
       omega)
    | (have h2 := hdw (fun x => !(x == dquoteChar)) rest
       rw [h] at h2
       simp only [List.length_cons] at h2
       omega)
    | (have h2 := hdw Char.isDigit rest
       omega)
    | omega

/-- Data quality rule (models the DQRule pydantic model of
src/models/dq_rule.py; the pydantic range validators on
threshold_percent and confidence_score are treated separately in the
adapter-normalization theorems). -/
structure DQRule where
  rule_id : String
  attribute_name : String
  rule_category : String
  rule_type : String
  rule_expression : String
  rule_expression_sql : String
  rule_expression_python : String
  severity : String
  description : String
  threshold_percent : ℚ
  derived_from : String
  confidence_score : ℚ
  sample_valid_values : List String
  sample_invalid_values : List String
deriving DecidableEq

/-- One entry of the sample_failures list of a ValidationResult:
an explanatory note, an error text, or a (possibly projected) row. -/
inductive FailureRecord where
  | note (s : String)
  | errorText (s : String)
  | row (r : Row)
deriving DecidableEq

/-- Result of validating one rule (models ValidationResult of
src/models/agent_state.py; pass_count is an integer because Python
computes it by subtraction). -/
structure ValidationResult where
  rule_id : String
  pass_count : ℤ
  fail_count : ℕ
  pass_rate : ℚ
  sample_failures : List FailureRecord
deriving DecidableEq

/-- Environment abstracting the library calls the validation engine makes
outside this repository: regexValid models successful re-pattern
compilation (re.error on failure), regexMatch models str.match with a
compiled pattern, evalDataFrame models the sandboxed eval of the custom
rule expression together with the isinstance DataFrame test (none covers
both an exception and a non-DataFrame result). -/
structure PyEnv where
  regexValid : String → Bool
  regexMatch : String → String → Bool
  evalDataFrame : String → DataFrame → Option DataFrame

/-- Model of RuleValidationAgent._extract_value_set: sample_valid_values
if non-empty, else the tokens of the first IN (...) fragment of the
expression, else empty. -/
def extract_value_set (rule : DQRule) : List String :=
  if rule.sample_valid_values ≠ [] then rule.sample_valid_values
  else
    match searchInParen rule.rule_expression.toList with
    | some body => findValueTokens body
    | none => []

/-- Model of RuleValidationAgent._extract_range: a BETWEEN fragment gives
both bounds, otherwise the comparison fragments give each bound
independently. -/
def extract_range (rule : DQRule) : Option ℚ × Option ℚ :=
  match searchBetweenRat rule.rule_expression.toList with
  | some (lo, hi) => (some lo, some hi)
  | none =>
      (searchCmpRat (Char.ofNat 62) rule.rule_expression.toList,
       searchCmpRat (Char.ofNat 60) rule.rule_expression.toList)

/-- Model of RuleValidationAgent._extract_pattern: a MATCHES/REGEXP
quoted fragment of the expression, else a .str.match quoted fragment of
the Python expression. -/
def extract_pattern (rule : DQRule) : Option String :=
  match searchMatchesQuoted rule.rule_expression.toList with
  | some p => some p
  | none => searchStrMatchQuoted rule.rule_expression_python.toList

/-- Model of RuleValidationAgent._extract_length_bounds. -/
def extract_length_bounds (rule : DQRule) : Option ℕ × Option ℕ :=
  match searchAfterLength searchBetweenNat rule.rule_expression.toList with
  | some (lo, hi) => (some lo, some hi)
  | none =>
      (searchAfterLength (searchCmpNat (Char.ofNat 62)) rule.rule_expression.toList,
       searchAfterLength (searchCmpNat (Char.ofNat 60)) rule.rule_expression.toList)

/-- Case-insensitive substring test (models the Python in test on
lowercased strings). -/
def containsCI (hay needle : String) : Bool :=
  decide ((needle.toList.map Char.toLower) <:+: (hay.toList.map Char.toLower))

/-- Model of RuleValidationAgent._extract_expected_type. -/
def extract_expected_type (rule : DQRule) : String :=
  if containsCI rule.rule_expression "numeric" ∨ containsCI rule.rule_expression "number" then
    "numeric"
  else if containsCI rule.rule_expression "date" then "date"
  else "string"

/-- Membership of a cell in a list of valid-value strings (models
Series.isin with a list of Python strings: only string cells can be
members). -/
def cellInStrList (c : Cell) (vs : List String) : Bool :=
  match c with
  | Cell.str s => vs.contains s
  | _ => false

/-- The failing subset for one rule when the attribute is present:
one branch per rule type, each a filter of the sample rows (or the
empty DataFrame fallback), mirroring the dispatch in
RuleValidationAgent._execute_python_rule. -/
def executeRuleBranch (env : PyEnv) (df : DataFrame) (rule : DQRule) : DataFrame :=
  let attr := rule.attribute_name
  if rule.rule_type = "NOT_NULL" then
    ⟨df.columns, df.rows.filter (fun r => cellIsNa (rowGet r attr))⟩
  else if rule.rule_type = "NOT_EMPTY" then
    ⟨df.columns, df.rows.filter (fun r =>
      cellIsNa (rowGet r attr) || ((cellToStr (rowGet r attr)).trim == ""))⟩
  else if rule.rule_type = "VALUE_SET" then
    let validValues := extract_value_set rule
    if validValues ≠ [] then
      ⟨df.columns, df.rows.filter (fun r =>
        !(cellInStrList (rowGet r attr) validValues) && !(cellIsNa (rowGet r attr)))⟩
    else emptyDataFrame
  else if rule.rule_type = "RANGE" then
    match extract_range rule with
    | (some minVal, some maxVal) =>
        ⟨df.columns, df.rows.filter (fun r =>
          match toNumeric (rowGet r attr) with
          | some q => decide (q < minVal) || decide (maxVal < q)
          | none => false)⟩
    | _ => emptyDataFrame
  else if rule.rule_type = "PRIMARY_KEY" then
    ⟨df.columns, df.rows.filter (fun r =>
      2 ≤ df.rows.countP (fun r2 => rowGet r2 attr == rowGet r attr))⟩
  else if rule.rule_type = "FORMAT_PATTERN" then
    match extract_pattern rule with
    | some p =>
        if env.regexValid p then
          ⟨df.columns, df.rows.filter (fun r =>
            !(env.regexMatch p (cellToStr (rowGet r attr))))⟩
        else emptyDataFrame
    | none => emptyDataFrame
  else if rule.rule_type = "LENGTH" then
    let bounds := extract_length_bounds rule
    ⟨df.columns, df.rows.filter (fun r =>
      ((match bounds.1 with
        | some minLen => decide ((cellToStr (rowGet r attr)).length < minLen)
        | none => false)
       || (match bounds.2 with
        | some maxLen => decide (maxLen < (cellToStr (rowGet r attr)).length)
        | none => false))
      && !(cellIsNa (rowGet r attr)))⟩
  else if rule.rule_type = "DATA_TYPE" then
    if extract_expected_type rule = "numeric" then
      ⟨df.columns, df.rows.filter (fun r =>
        (toNumeric (rowGet r attr)).isNone && !(cellIsNa (rowGet r attr)))⟩
    else emptyDataFrame
  else
    match env.evalDataFrame rule.rule_expression_python df with
    | some result => result
    | none => emptyDataFrame

/-- Model of RuleValidationAgent._execute_python_rule: none when the
attribute is not a column of the sample relation, otherwise the failing
subset of the dispatch above. -/
def execute_python_rule (env : PyEnv) (df : DataFrame) (rule : DQRule) : Option DataFrame :=
  if rule.attribute_name ∈ df.columns then some (executeRuleBranch env df rule) else none

/-- The explanatory note produced when the rule attribute is absent from
the sample data. -/
def attrNotFoundNote (attributeName : String) : String :=
  "Attribute " ++ squoteStr ++ attributeName ++ squoteStr ++ " not found in sample data"

/-- The ValidationResult built by validate_rule from the outcome of
execute_python_rule (the body of the try block). -/
def validateRuleCore (df : DataFrame) (rule : DQRule) (failuresOpt : Option DataFrame) :
    ValidationResult :=
  match failuresOpt with
  | none =>
      ⟨rule.rule_id, (df.rows.length : ℤ), 0, 100,
        [FailureRecord.note (attrNotFoundNote rule.attribute_name)]⟩
  | some failures =>
      let totalRecords := df.rows.length
      let failCount := failures.rows.length
      let passCount : ℤ := (totalRecords : ℤ) - (failCount : ℤ)
      let passRate : ℚ :=
        if 0 < totalRecords then (passCount : ℚ) / (totalRecords : ℚ) * 100 else 0
      let sampleFailures :=
        if 0 < failCount then
          if rule.attribute_name ∈ failures.columns then
            (failures.rows.take 5).map (fun r =>
              FailureRecord.row [(rule.attribute_name, rowGet r rule.attribute_name)])
          else
            (failures.rows.take 5).map FailureRecord.row
        else []
      ⟨rule.rule_id, passCount, failCount, roundTo 2 passRate, sampleFailures⟩

/-- Model of RuleValidationAgent.validate_rule with the try/except made
explicit: the body is any Except-valued execution; an error is converted
to a zero-pass zero-fail result carrying the error text. -/
def validateRuleE (df : DataFrame) (exec : DQRule → Except String (Option DataFrame))
    (rule : DQRule) : ValidationResult :=
  match exec rule with
  | Except.error e => ⟨rule.rule_id, 0, 0, 0, [FailureRecord.errorText e]⟩
  | Except.ok failuresOpt => validateRuleCore df rule failuresOpt

/-- Model of RuleValidationAgent.validate_rule for the embedded engine,
whose execution body never raises. -/
def validate_rule (env : PyEnv) (df : DataFrame) (rule : DQRule) : ValidationResult :=
  validateRuleCore df rule (execute_python_rule env df rule)

/-- Model of RuleValidationAgent.validate_all_rules over an Except-valued
per-rule execution body. -/
def validateAllRulesE (df : DataFrame) (exec : DQRule → Except String (Option DataFrame))
    (rules : List DQRule) : List ValidationResult :=
  rules.map (validateRuleE df exec)

/-- Model of RuleValidationAgent.validate_all_rules for the embedded engine. -/
def validate_all_rules (env : PyEnv) (df : DataFrame) (rules : List DQRule) :
    List ValidationResult :=
  rules.map (validate_rule env df)

/-- Model of RuleValidationAgent.suggest_threshold_adjustment. -/
def suggest_threshold_adjustment (rule : DQRule) (result : ValidationResult) : ℚ :=
  let actualFailRate := 100 - result.pass_rate
  let currentThreshold := rule.threshold_percent
  if currentThreshold * 1.5 < actualFailRate then
    min (roundTo 1 (actualFailRate * 1.1)) 100
  else if actualFailRate < currentThreshold * 0.5 ∧ 0 < actualFailRate then
    max (roundTo 1 (actualFailRate * 1.5)) 0.1
  else currentThreshold

/-- Threshold adjustment applied to one rule inside refine_rules_node
(src/workflow/nodes.py): only the raise branch exists there; when it
fires, the rule is rebuilt with the new threshold and a provenance note
appended to derived_from. -/
def adjustRuleNode (vmap : String → Option ValidationResult) (rule : DQRule) : DQRule :=
  match vmap rule.rule_id with
  | none => rule
  | some result =>
      let actualFailRate := 100 - result.pass_rate
      if rule.threshold_percent * 1.5 < actualFailRate then
        { rule with
            threshold_percent := min (roundTo 1 (actualFailRate * 1.1)) 100,
            derived_from := rule.derived_from ++ " (threshold adjusted)" }
      else rule

/-- Loop of refine_rules_node: first-seen-wins deduplication by rule_id
interleaved with the threshold adjustment. -/
def refineRulesAux (vmap : String → Option ValidationResult) :
    List DQRule → List String → List DQRule
  | [], _ => []
  | rule :: rest, seenIds =>
      if rule.rule_id ∈ seenIds then refineRulesAux vmap rest seenIds
      else adjustRuleNode vmap rule :: refineRulesAux vmap rest (rule.rule_id :: seenIds)

/-- Model of refine_rules_node (src/workflow/nodes.py): deduplicate by
rule_id (first seen wins) and adjust thresholds from the
validation-results map. -/
def refine_rules_node (vmap : String → Option ValidationResult) (rules : List DQRule) :
    List DQRule :=
  refineRulesAux vmap rules []

/-- Routing outcome of the conditional edge after validate_rules.
The source function returns continue or complete; the two complete
constructors distinguish the cap branch (which logs Reached iteration
limit before returning) from plain queue exhaustion, modelling that
observable marking. -/
inductive RouteDecision where
  | continueProcessing
  | completeExhausted
  | completeCapReached
deriving DecidableEq

/-- The slice of AgentState driving the derive/validate loop. -/
structure LoopState where
  attributesToProcess : List String
  currentAttribute : Option String
  iterationCount : ℕ
deriving DecidableEq

/-- Model of should_process_more_attributes (src/workflow/edges.py):
complete when no current attribute; complete via the cap branch when the
iteration count has reached max_iterations; continue otherwise. -/
def should_process_more_attributes (maxIterations : ℕ) (s : LoopState) : RouteDecision :=
  match s.currentAttribute with
  | none => RouteDecision.completeExhausted
  | some _ =>
      if maxIterations ≤ s.iterationCount then RouteDecision.completeCapReached
      else RouteDecision.continueProcessing

/-- Queue advance performed at the end of validate_rules_node: look up
the current attribute in the queue (a missing or falsy current attribute
gives index -1, so the successor index 0), take the next attribute if in
range, and increment the iteration count. -/
def advanceAttribute (s : LoopState) : LoopState :=
  let nextIdx : ℕ :=
    match s.currentAttribute with
    | none => 0
    | some c =>
        if c = "" then 0
        else
          match s.attributesToProcess.findIdx? (fun a => a == c) with
          | some i => i + 1
          | none => 0
  { s with
      currentAttribute := s.attributesToProcess[nextIdx]?,
      iterationCount := s.iterationCount + 1 }

/-- The derive/validate loop after its first body execution: run the
conditional edge; on continue run the body (advance) again. -/
def loopRun (maxIterations : ℕ) (s : LoopState) : LoopState × RouteDecision :=
  if h : should_process_more_attributes maxIterations s = RouteDecision.continueProcessing then
    loopRun maxIterations (advanceAttribute s)
  else (s, should_process_more_attributes maxIterations s)
termination_by maxIterations - s.iterationCount
decreasing_by
  have hlt : s.iterationCount < maxIterations := by
    by_contra hm
    push_neg at hm
    unfold should_process_more_attributes at h
    cases hc : s.currentAttribute with
    | none => rw [hc] at h; simp at h
    | some c => rw [hc] at h; simp [Nat.le_of_lt_succ, hm] at h
  simp only [advanceAttribute]
  omega

/-- Full run of the derive/validate loop from the state produced by
select_priority_attributes_node (iteration count 0, current attribute the
queue head): the graph runs derive and validate once before the first
edge evaluation, so one advance precedes the guarded loop. -/
def runDeriveValidateLoop (maxIterations : ℕ) (attrs : List String) :
    LoopState × RouteDecision :=
  loopRun maxIterations (advanceAttribute ⟨attrs, attrs.head?, 0⟩)

/-- The slice of one attribute's profiling stats dict read by
select_priority_attributes_node. -/
structure AttrStats where
  datatype : String
  missing_percentage : ℚ
deriving DecidableEq

/-- An attribute usable for rule derivation: not datatype Empty and not
fully missing. -/
def usableAttr (st : AttrStats) : Bool :=
  !(st.datatype == "Empty") && decide (st.missing_percentage < 100)

/-- The taxonomy-matched attributes surviving the validation filter of
select_priority_attributes_node (order of the allow-list intersection). -/
def validatedAttrs (profilingStats : List (String × AttrStats)) (available : List String) :
    List String :=
  available.filter (fun a =>
    match List.lookup a profilingStats with
    | some st => usableAttr st
    | none => false)

/-- Fallback loop of select_priority_attributes_node (and of
DataProfilerAgent.get_dynamic_priority_attributes): walk the profiling
stats in raw order, keep usable attributes, stop once the count reaches
the attribute-count bound (checked after each append). -/
def fallbackAttrs (attributeCount : ℕ) :
    List (String × AttrStats) → ℕ → List String
  | [], _ => []
  | (a, st) :: rest, k =>
      if usableAttr st then
        if attributeCount ≤ k + 1 then [a]
        else a :: fallbackAttrs attributeCount rest (k + 1)
      else fallbackAttrs attributeCount rest k

/-- DEFAULT_ATTRIBUTE_COUNT from src/config/attribute_config.py. -/
def DEFAULT_ATTRIBUTE_COUNT : ℕ := 15

/-- Model of select_priority_attributes_node: validate the allow-list
intersection; if it is empty (allow-list unavailable or zero usable
matches) fall back to the first attributeCount usable attributes in raw
profiling order. -/
def select_priority_attributes_node (profilingStats : List (String × AttrStats))
    (available : List String) (attributeCount : ℕ) : List String :=
  let validated := validatedAttrs profilingStats available
  if validated.isEmpty then fallbackAttrs attributeCount profilingStats 0 else validated

/-- A raw JSON field value as seen by
RuleDerivationAgent._ensure_rule_fields: absent covers both a missing key
and an explicit null (both are replaced by the default before the numeric
coercion); other covers values such as lists or objects on which the
min/max clamp raises TypeError, dropping the rule. -/
inductive RawField where
  | absent
  | str (s : String)
  | num (q : ℚ)
  | boolean (b : Bool)
  | other
deriving DecidableEq

/-- Normalization of threshold_percent in _ensure_rule_fields: default
5.0 for a missing field, float(s) with fallback 5.0 for a string, then
the clamp max(0.0, min(100.0, x)). -/
def ensure_threshold_percent (v : RawField) : Except String ℚ :=
  match v with
  | RawField.absent => Except.ok (max 0 (min 100 (5 : ℚ)))
  | RawField.str s => Except.ok (max 0 (min 100 ((parseDecimal s).getD 5)))
  | RawField.num q => Except.ok (max 0 (min 100 q))
  | RawField.boolean b => Except.ok (max 0 (min 100 (if b then (1 : ℚ) else 0)))
  | RawField.other => Except.error "TypeError"

/-- Normalization of confidence_score in _ensure_rule_fields: default
0.8 for a missing field, float(s) with fallback 0.8 for a string, then
the clamp max(0.0, min(1.0, x)). -/
def ensure_confidence_score (v : RawField) : Except String ℚ :=
  match v with
  | RawField.absent => Except.ok (max 0 (min 1 (0.8 : ℚ)))
  | RawField.str s => Except.ok (max 0 (min 1 ((parseDecimal s).getD 0.8)))
  | RawField.num q => Except.ok (max 0 (min 1 q))
  | RawField.boolean b => Except.ok (max 0 (min 1 (if b then (1 : ℚ) else 0)))
  | RawField.other => Except.error "TypeError"

/-- The list of built-in rule types handled by dedicated branches of the
validation engine. -/
def builtinRuleTypes : List String :=
  ["NOT_NULL", "NOT_EMPTY", "VALUE_SET", "RANGE", "PRIMARY_KEY",
   "FORMAT_PATTERN", "LENGTH", "DATA_TYPE"]

/-- A concrete environment for evaluating the engine on closed inputs
(no branch consulted below depends on its fields). -/
def sampleEnv : PyEnv := ⟨fun _ => false, fun _ _ => false, fun _ _ => none⟩

/-- A single-column row holding a number. -/
def rowNumV (q : ℚ) : Row := [("v", Cell.num q)]

/-- A single-column row holding a string. -/
def rowStrV (s : String) : Row := [("v", Cell.str s)]

/-- The sample relation of the RANGE test: one column v with values
5, 6, 800, 801 and the non-numeric string abc. -/
def dfRange : DataFrame :=
  ⟨["v"], [rowNumV 5, rowNumV 6, rowNumV 800, rowNumV 801, rowStrV "abc"]⟩

/-- A RANGE rule whose expression contains BETWEEN 6 AND 800. -/
def ruleRange : DQRule :=
  ⟨"DQ_V_VAL_001", "v", "Validity", "RANGE", "v BETWEEN 6 AND 800", "", "",
    "Medium", "", 5, "profiling analysis", 0.8, [], []⟩

/-- A sample relation with a column x and zero rows. -/
def dfEmptyRows : DataFrame := ⟨["x"], []⟩

/-- A sample relation with a column x and one row. -/
def dfOneRow : DataFrame := ⟨["x"], [[("x", Cell.num 1)]]⟩

/-- A NOT_NULL rule on attribute x. -/
def ruleNotNullX : DQRule :=
  ⟨"DQ_X_COM_001", "x", "Completeness", "NOT_NULL", "x IS NOT NULL", "", "",
    "Medium", "", 5, "profiling analysis", 0.9, [], []⟩

/-- A NOT_NULL rule on attribute y (absent from the sample relations above). -/
def ruleNotNullY : DQRule :=
  ⟨"DQ_Y_COM_001", "y", "Completeness", "NOT_NULL", "y IS NOT NULL", "", "",
    "Medium", "", 5, "profiling analysis", 0.9, [], []⟩

/-- A rule with a tiny declared threshold (0.02 percent). -/
def ruleTight : DQRule :=
  ⟨"DQ_T1", "v", "Validity", "RANGE", "", "", "", "Medium", "", 1/50,
    "profiling analysis", 0.8, [], []⟩

/-- A validation result with pass rate 99.96 (actual fail rate 0.04). -/
def resTight : ValidationResult := ⟨"DQ_T1", 2499, 1, 99.96, []⟩

/-- Validation-results map holding only resTight. -/
def vmapTight : String → Option ValidationResult :=
  fun i => if i == "DQ_T1" then some resTight else none

/-- A rule with threshold 50 percent. -/
def ruleWide : DQRule :=
  ⟨"DQ_R1", "v", "Validity", "RANGE", "", "", "", "Medium", "", 50,
    "profiling analysis", 0.8, [], []⟩

/-- A validation result with pass rate 99 (actual fail rate 1). -/
def resWide : ValidationResult := ⟨"DQ_R1", 99, 1, 99, []⟩

/-- Validation-results map holding only resWide. -/
def vmapWide : String → Option ValidationResult :=
  fun i => if i == "DQ_R1" then some resWide else none

/-- The empty validation-results map. -/
def vmapNone : String → Option ValidationResult := fun _ => none

/-- Profiling stats sample: a usable, b Empty, c fully missing, d and e
usable. -/
def statsSample : List (String × AttrStats) :=
  [("a", ⟨"Text", 10⟩), ("b", ⟨"Empty", 0⟩), ("c", ⟨"Numeric", 100⟩),
   ("d", ⟨"ID", 0⟩), ("e", ⟨"Text", 50⟩)]

/-- An execution body that raises on the first rule id and succeeds with
the attribute-missing outcome otherwise. -/
def execBoom : DQRule → Except String (Option DataFrame) :=
  fun rule => if rule.rule_id == "DQ_X_COM_001" then Except.error "boom" else Except.ok none


/-- ruleTight after one pass of the refiner raise branch. -/
def ruleTightAdj : DQRule :=
  { ruleTight with
      threshold_percent := min (roundTo 1 ((100 - resTight.pass_rate) * 1.1)) 100,
      derived_from := ruleTight.derived_from ++ " (threshold adjusted)" }

/-- ruleTightAdj after a second pass of the refiner raise branch. -/
def ruleTightAdj2 : DQRule :=
  { ruleTightAdj with
      threshold_percent := min (roundTo 1 ((100 - resTight.pass_rate) * 1.1)) 100,
      derived_from := ruleTightAdj.derived_from ++ " (threshold adjusted)" }

/-- Rounding zero gives zero. -/
theorem roundTo_zero (k : ℕ) : roundTo k 0 = 0 := by
  unfold roundTo
  simp

/-- C1 (amended): against an empty sample relation (zero rows),
validate_rule yields pass rate 0 when the rule attribute is one of the
relation columns (the total-records guard takes the else branch with
value 0), and pass rate 100 only when the attribute is absent from the
columns. -/
theorem empty_sample_pass_rate (env : PyEnv) (df : DataFrame) (rule : DQRule)
    (h : df.rows = []) :
    (validate_rule env df rule).pass_rate =
      if rule.attribute_name ∈ df.columns then 0 else 100 := by
  unfold validate_rule execute_python_rule
  by_cases hc : rule.attribute_name ∈ df.columns
  · rw [if_pos hc, if_pos hc]
    unfold validateRuleCore
    simp only [h, List.length_nil, lt_self_iff_false, if_false]
    exact roundTo_zero 2
  · rw [if_neg hc, if_neg hc]
    rfl

/-- C1 (witness): the amended statement evaluated at a NOT_NULL rule on
the present column x of an empty relation. -/
theorem empty_sample_pass_rate_witness :
    dfEmptyRows.rows = [] ∧
      (validate_rule sampleEnv dfEmptyRows ruleNotNullX).pass_rate =
        if ruleNotNullX.attribute_name ∈ dfEmptyRows.columns then 0 else 100 :=
  ⟨rfl, empty_sample_pass_rate sampleEnv dfEmptyRows ruleNotNullX rfl⟩

/-- C1 (counterexample): for the NOT_NULL rule on the present column x of
an empty sample relation, the pass rate is 0, not 100. -/
theorem empty_sample_pass_rate_cex :
    (validate_rule sampleEnv dfEmptyRows ruleNotNullX).pass_rate = 0 ∧ (0 : ℚ) ≠ 100 := by
  constructor
  · unfold validate_rule execute_python_rule
    rw [if_pos (by decide)]
    unfold validateRuleCore
    norm_num [dfEmptyRows, roundTo]
  · norm_num

/-- C2 (counterexample): for the RANGE rule parsed from BETWEEN 6 AND 800
over the sample values 5, 6, 800, 801, abc, the row holding the
non-numeric value abc is NOT in the failing subset (its coerced NaN
satisfies neither comparison), contradicting the claim that the failing
subset is exactly the rows 5, 801 and abc. -/
theorem range_nonnumeric_not_failing_cex :
    rowStrV "abc" ∉
      ((execute_python_rule sampleEnv dfRange ruleRange).getD emptyDataFrame).rows := by
  decide

/-- C2 (amended): the failing subset of the RANGE rule parsed from
BETWEEN 6 AND 800 over the sample values 5, 6, 800, 801, abc is exactly
the two rows holding 5 and 801; the non-numeric value coerces to NaN,
which satisfies neither comparison, so it is not part of the failing
subset. -/
theorem range_failing_subset :
    execute_python_rule sampleEnv dfRange ruleRange =
      some ⟨["v"], [rowNumV 5, rowNumV 801]⟩ := by
  decide

/-- C7: when the rule attribute is not a column of the (non-empty) sample
relation, validate_rule returns pass count equal to the number of rows,
fail count 0, pass rate 100 and the explanatory note, instead of raising. -/
theorem missing_attribute_result (env : PyEnv) (df : DataFrame) (rule : DQRule)
    (h1 : rule.attribute_name ∉ df.columns) (h2 : df.rows ≠ []) :
    validate_rule env df rule =
      ⟨rule.rule_id, (df.rows.length : ℤ), 0, 100,
        [FailureRecord.note (attrNotFoundNote rule.attribute_name)]⟩ := by
  unfold validate_rule execute_python_rule
  rw [if_neg h1]
  rfl

/-- C7 (witness): the missing-attribute path evaluated for a rule on
attribute y against the one-row relation with single column x. -/
theorem missing_attribute_result_witness :
    ruleNotNullY.attribute_name ∉ dfOneRow.columns ∧ dfOneRow.rows ≠ [] ∧
      validate_rule sampleEnv dfOneRow ruleNotNullY =
        ⟨"DQ_Y_COM_001", 1, 0, 100,
          [FailureRecord.note (attrNotFoundNote "y")]⟩ :=
  ⟨by decide, by decide,
    missing_attribute_result sampleEnv dfOneRow ruleNotNullY (by decide) (by decide)⟩

/-- The edge returns continue exactly when a current attribute exists and
the iteration count is below the cap. -/
theorem continue_iff (m : ℕ) (s : LoopState) :
    should_process_more_attributes m s = RouteDecision.continueProcessing ↔
      s.currentAttribute ≠ none ∧ s.iterationCount < m := by
  unfold should_process_more_attributes
  cases hc : s.currentAttribute with
  | none => simp
  | some c =>
      by_cases hm : m ≤ s.iterationCount
      · simp [hm]
      · simp [hm]
        omega

/-- The edge returns the cap-branch completion exactly when a current
attribute exists and the iteration count has reached the cap. -/
theorem cap_iff (m : ℕ) (s : LoopState) :
    should_process_more_attributes m s = RouteDecision.completeCapReached ↔
      s.currentAttribute ≠ none ∧ m ≤ s.iterationCount := by
  unfold should_process_more_attributes
  cases hc : s.currentAttribute with
  | none => simp
  | some c =>
      by_cases hm : m ≤ s.iterationCount
      · simp [hm]
      · simp [hm]

/-- The edge returns plain completion exactly when the queue is exhausted
(no current attribute). -/
theorem exhausted_iff (m : ℕ) (s : LoopState) :
    should_process_more_attributes m s = RouteDecision.completeExhausted ↔
      s.currentAttribute = none := by
  unfold should_process_more_attributes
  cases hc : s.currentAttribute with
  | none => simp
  | some c =>
      by_cases hm : m ≤ s.iterationCount
      · simp [hm]
      · simp [hm]

/-- The loop never raises the iteration count beyond the larger of its
starting value and the cap. -/
theorem loopRun_iter_le (m : ℕ) (s : LoopState) :
    (loopRun m s).1.iterationCount ≤ max s.iterationCount m := by
  generalize hk : m - s.iterationCount = k
  induction k generalizing s with
  | zero =>
      rw [loopRun]
      have hng : should_process_more_attributes m s ≠ RouteDecision.continueProcessing := by
        intro hcont
        have := ((continue_iff m s).mp hcont).2
        omega
      rw [dif_neg hng]
      simp [le_max_left]
  | succ k ih =>
      rw [loopRun]
      by_cases hcont : should_process_more_attributes m s = RouteDecision.continueProcessing
      · rw [dif_pos hcont]
        have h2 := ((continue_iff m s).mp hcont).2
        have ha : (advanceAttribute s).iterationCount = s.iterationCount + 1 := rfl
        have hk2 : m - (advanceAttribute s).iterationCount = k := by rw [ha]; omega
        have h3 := ih (advanceAttribute s) hk2
        rw [ha] at h3
        omega
      · rw [dif_neg hcont]
        simp [le_max_left]

/-- The loop stops with the edge decision of its final state, and that
decision is never continue. -/
theorem loopRun_final (m : ℕ) (s : LoopState) :
    (loopRun m s).2 = should_process_more_attributes m (loopRun m s).1 ∧
      (loopRun m s).2 ≠ RouteDecision.continueProcessing := by
  generalize hk : m - s.iterationCount = k
  induction k generalizing s with
  | zero =>
      rw [loopRun]
      have hng : should_process_more_attributes m s ≠ RouteDecision.continueProcessing := by
        intro hcont
        have := ((continue_iff m s).mp hcont).2
        omega
      rw [dif_neg hng]
      exact ⟨rfl, hng⟩
  | succ k ih =>
      rw [loopRun]
      by_cases hcont : should_process_more_attributes m s = RouteDecision.continueProcessing
      · rw [dif_pos hcont]
        have ha : (advanceAttribute s).iterationCount = s.iterationCount + 1 := rfl
        have h2 := ((continue_iff m s).mp hcont).2
        exact ih (advanceAttribute s) (by rw [ha]; omega)
      · rw [dif_neg hcont]
        exact ⟨rfl, hcont⟩

/-- C3: for a full run of the derive/validate loop with cap m (at least
1), the final iteration count never exceeds m; the loop is only
re-entered while the iteration count is strictly below m and an attribute
is queued; termination through the cap branch (which logs the iteration
limit) happens exactly when attributes remain queued with the cap
reached, and is a distinct marking from normal queue exhaustion. -/
theorem controller_iteration_cap (m : ℕ) (attrs : List String) (hm : 1 ≤ m) :
    (runDeriveValidateLoop m attrs).1.iterationCount ≤ m
    ∧ (∀ s, should_process_more_attributes m s = RouteDecision.continueProcessing →
        s.iterationCount < m ∧ s.currentAttribute ≠ none)
    ∧ ((runDeriveValidateLoop m attrs).2 = RouteDecision.completeCapReached ↔
        (runDeriveValidateLoop m attrs).1.currentAttribute ≠ none ∧
          m ≤ (runDeriveValidateLoop m attrs).1.iterationCount)
    ∧ ((runDeriveValidateLoop m attrs).2 = RouteDecision.completeExhausted ↔
        (runDeriveValidateLoop m attrs).1.currentAttribute = none)
    ∧ RouteDecision.completeCapReached ≠ RouteDecision.completeExhausted := by
  have hfin := loopRun_final m (advanceAttribute ⟨attrs, attrs.head?, 0⟩)
  have hle := loopRun_iter_le m (advanceAttribute ⟨attrs, attrs.head?, 0⟩)
  have ha : (advanceAttribute (⟨attrs, attrs.head?, 0⟩ : LoopState)).iterationCount = 1 := rfl
  rw [ha] at hle
  refine ⟨?_, ?_, ?_, ?_, by simp⟩
  · unfold runDeriveValidateLoop
    omega
  · intro s hcont
    have := (continue_iff m s).mp hcont
    exact ⟨this.2, this.1⟩
  · unfold runDeriveValidateLoop
    rw [hfin.1]
    exact cap_iff m _
  · unfold runDeriveValidateLoop
    rw [hfin.1]
    exact exhausted_iff m _

/-- C3 (witness): cap 2 with three queued attributes. -/
theorem controller_iteration_cap_witness :
    (1 ≤ 2)
    ∧ (runDeriveValidateLoop 2 ["a", "b", "c"]).1.iterationCount ≤ 2
    ∧ ((runDeriveValidateLoop 2 ["a", "b", "c"]).2 = RouteDecision.completeCapReached ↔
        (runDeriveValidateLoop 2 ["a", "b", "c"]).1.currentAttribute ≠ none ∧
          2 ≤ (runDeriveValidateLoop 2 ["a", "b", "c"]).1.iterationCount) :=
  ⟨by decide, (controller_iteration_cap 2 ["a", "b", "c"] (by decide)).1,
    (controller_iteration_cap 2 ["a", "b", "c"] (by decide)).2.2.1⟩

/-- A max-min clamp lands inside its interval. -/
theorem clamp_bounds (lo hi x : ℚ) (h : lo ≤ hi) :
    lo ≤ max lo (min hi x) ∧ max lo (min hi x) ≤ hi :=
  ⟨le_max_left _ _, max_le h (min_le_left _ _)⟩

/-- C4: every threshold_percent and confidence_score surviving the
adapter normalization lies in its bounds (0..100 and 0..1), for numeric
inputs of any magnitude and for string-typed inputs (unparseable strings
fall back to the defaults 5.0 and 0.8, and clamping applies in every
case); the error outcome models the TypeError on list/object inputs,
whose rule is dropped rather than emitted. -/
theorem adapter_normalization_bounds (vt vc : RawField) (t c : ℚ)
    (ht : ensure_threshold_percent vt = Except.ok t)
    (hc : ensure_confidence_score vc = Except.ok c) :
    (0 ≤ t ∧ t ≤ 100) ∧ (0 ≤ c ∧ c ≤ 1)
    ∧ (∀ s, parseDecimal s = none →
        ensure_threshold_percent (RawField.str s) = Except.ok 5 ∧
        ensure_confidence_score (RawField.str s) = Except.ok 0.8) := by
  refine ⟨?_, ?_, ?_⟩
  · cases vt with
    | absent => injection ht with h; rw [← h]; exact clamp_bounds 0 100 _ (by norm_num)
    | str s => injection ht with h; rw [← h]; exact clamp_bounds 0 100 _ (by norm_num)
    | num q => injection ht with h; rw [← h]; exact clamp_bounds 0 100 _ (by norm_num)
    | boolean b => injection ht with h; rw [← h]; exact clamp_bounds 0 100 _ (by norm_num)
    | other => exact Except.noConfusion ht
  · cases vc with
    | absent => injection hc with h; rw [← h]; exact clamp_bounds 0 1 _ (by norm_num)
    | str s => injection hc with h; rw [← h]; exact clamp_bounds 0 1 _ (by norm_num)
    | num q => injection hc with h; rw [← h]; exact clamp_bounds 0 1 _ (by norm_num)
    | boolean b => injection hc with h; rw [← h]; exact clamp_bounds 0 1 _ (by norm_num)
    | other => exact Except.noConfusion hc
  · intro s hs
    constructor
    · show Except.ok (max 0 (min 100 ((parseDecimal s).getD 5))) = Except.ok 5
      rw [hs]
      norm_num
    · show Except.ok (max 0 (min 1 ((parseDecimal s).getD 0.8))) = Except.ok 0.8
      rw [hs]
      norm_num

/-- C4 (witness): an out-of-range number 250 is clamped to 100, an
unparseable string falls back to 0.8, both in bounds. -/
theorem adapter_normalization_bounds_witness :
    (ensure_threshold_percent (RawField.num 250) = Except.ok 100)
    ∧ (ensure_confidence_score (RawField.str "zz") = Except.ok 0.8)
    ∧ (0 ≤ (100 : ℚ) ∧ (100 : ℚ) ≤ 100)
    ∧ (0 ≤ (0.8 : ℚ) ∧ (0.8 : ℚ) ≤ 1) := by
  have h1 : ensure_threshold_percent (RawField.num 250) = Except.ok 100 := by
    show Except.ok (max 0 (min 100 (250 : ℚ))) = Except.ok 100
    norm_num
  have h2 : ensure_confidence_score (RawField.str "zz") = Except.ok 0.8 := by
    have hp : parseDecimal "zz" = none := by decide
    show Except.ok (max 0 (min 1 ((parseDecimal "zz").getD 0.8))) = Except.ok 0.8
    rw [hp]
    norm_num
  exact ⟨h1, h2, (adapter_normalization_bounds _ _ _ _ h1 h2).1,
    (adapter_normalization_bounds _ _ _ _ h1 h2).2.1⟩

/-- C5 (amended): when a rule has a matching ValidationResult whose
actual fail rate (100 - passRate) is positive and below half the
threshold, the workflow Rule Refiner (refine_rules_node) leaves the rule
completely unchanged - the tightening branch exists only in the
validation agent method suggest_threshold_adjustment, which the workflow
Refiner does not call; that method returns the tightened value
max(round(actualFailRate * 1.5, 1), 0.1). -/
theorem refiner_no_tighten_branch (vmap : String → Option ValidationResult)
    (rule : DQRule) (result : ValidationResult)
    (h1 : vmap rule.rule_id = some result)
    (h2 : 100 - result.pass_rate < rule.threshold_percent * 0.5)
    (h3 : 0 < 100 - result.pass_rate) :
    adjustRuleNode vmap rule = rule
    ∧ refine_rules_node vmap [rule] = [rule]
    ∧ suggest_threshold_adjustment rule result =
        max (roundTo 1 ((100 - result.pass_rate) * 1.5)) 0.1 := by
  have hpos : 0 < rule.threshold_percent := by nlinarith
  have hno : ¬ (rule.threshold_percent * 1.5 < 100 - result.pass_rate) := by nlinarith
  have hadj : adjustRuleNode vmap rule = rule := by
    unfold adjustRuleNode
    rw [h1]
    show (if rule.threshold_percent * 1.5 < 100 - result.pass_rate then
        { rule with
            threshold_percent := min (roundTo 1 ((100 - result.pass_rate) * 1.1)) 100,
            derived_from := rule.derived_from ++ " (threshold adjusted)" }
      else rule) = rule
    rw [if_neg hno]
  refine ⟨hadj, ?_, ?_⟩
  · unfold refine_rules_node refineRulesAux
    simp [hadj]
    rfl
  · unfold suggest_threshold_adjustment
    rw [if_neg hno, if_pos ⟨h2, h3⟩]

/-- C5 (witness): threshold 50 with pass rate 99 (fail rate 1 < 25):
the Refiner node keeps the rule, the suggestion method returns the
tightened value. -/
theorem refiner_no_tighten_branch_witness :
    (vmapWide ruleWide.rule_id = some resWide)
    ∧ (100 - resWide.pass_rate < ruleWide.threshold_percent * 0.5)
    ∧ (0 < 100 - resWide.pass_rate)
    ∧ adjustRuleNode vmapWide ruleWide = ruleWide
    ∧ suggest_threshold_adjustment ruleWide resWide =
        max (roundTo 1 ((100 - resWide.pass_rate) * 1.5)) 0.1 := by
  have h1 : vmapWide ruleWide.rule_id = some resWide := by decide
  have h2 : 100 - resWide.pass_rate < ruleWide.threshold_percent * 0.5 := by
    norm_num [resWide, ruleWide]
  have h3 : (0 : ℚ) < 100 - resWide.pass_rate := by
    norm_num [resWide]
  exact ⟨h1, h2, h3,
    (refiner_no_tighten_branch vmapWide ruleWide resWide h1 h2 h3).1,
    (refiner_no_tighten_branch vmapWide ruleWide resWide h1 h2 h3).2.2⟩

/-- C5 (counterexample): for threshold 50 and pass rate 99 the tighten
conditions hold, yet the rule refined by refine_rules_node keeps
threshold 50 instead of the claimed max(1 * 1.5, 0.1) = 1.5. -/
theorem refiner_tighten_cex :
    (100 - resWide.pass_rate < ruleWide.threshold_percent * 0.5)
    ∧ (0 < 100 - resWide.pass_rate)
    ∧ (refine_rules_node vmapWide [ruleWide]).map (fun r => r.threshold_percent) ≠
        [max ((100 - resWide.pass_rate) * 1.5) 0.1] := by
  refine ⟨by norm_num [resWide, ruleWide], by norm_num [resWide], ?_⟩
  have h1 : vmapWide ruleWide.rule_id = some resWide := by decide
  have hno : ¬ (ruleWide.threshold_percent * 1.5 < 100 - resWide.pass_rate) := by
    norm_num [resWide, ruleWide]
  have hadj : adjustRuleNode vmapWide ruleWide = ruleWide := by
    unfold adjustRuleNode
    rw [h1]
    show (if ruleWide.threshold_percent * 1.5 < 100 - resWide.pass_rate then
        { ruleWide with
            threshold_percent := min (roundTo 1 ((100 - resWide.pass_rate) * 1.1)) 100,
            derived_from := ruleWide.derived_from ++ " (threshold adjusted)" }
      else ruleWide) = ruleWide
    rw [if_neg hno]
  unfold refine_rules_node refineRulesAux
  simp [hadj]
  norm_num [ruleWide, resWide]

/-- Threshold adjustment never changes the rule id. -/
theorem adjustRuleNode_rule_id (vmap : String → Option ValidationResult) (r : DQRule) :
    (adjustRuleNode vmap r).rule_id = r.rule_id := by
  unfold adjustRuleNode
  cases hv : vmap r.rule_id with
  | none => rfl
  | some result =>
      show (if r.threshold_percent * 1.5 < 100 - result.pass_rate then
          { r with
              threshold_percent := min (roundTo 1 ((100 - result.pass_rate) * 1.1)) 100,
              derived_from := r.derived_from ++ " (threshold adjusted)" }
        else r).rule_id = r.rule_id
      split
      · rfl
      · rfl

/-- Every rule emitted by the refiner loop has an id outside the seen set
it started from. -/
theorem refineRulesAux_notin_seen (vmap : String → Option ValidationResult) :
    ∀ (rules : List DQRule) (seen : List String) (r : DQRule),
      r ∈ refineRulesAux vmap rules seen → r.rule_id ∉ seen := by
  intro rules
  induction rules with
  | nil => intro seen r hr; simp [refineRulesAux] at hr
  | cons rule rest ih =>
      intro seen r hr
      unfold refineRulesAux at hr
      by_cases hs : rule.rule_id ∈ seen
      · rw [if_pos hs] at hr
        exact ih seen r hr
      · rw [if_neg hs] at hr
        rcases List.mem_cons.mp hr with h | h
        · rw [h, adjustRuleNode_rule_id]
          exact hs
        · have := ih (rule.rule_id :: seen) r h
          intro hin
          exact this (List.mem_cons_of_mem _ hin)

/-- The refiner loop emits pairwise distinct rule ids. -/
theorem refineRulesAux_ids_nodup (vmap : String → Option ValidationResult) :
    ∀ (rules : List DQRule) (seen : List String),
      ((refineRulesAux vmap rules seen).map (fun r => r.rule_id)).Nodup := by
  intro rules
  induction rules with
  | nil => intro seen; simp [refineRulesAux]
  | cons rule rest ih =>
      intro seen
      unfold refineRulesAux
      by_cases hs : rule.rule_id ∈ seen
      · rw [if_pos hs]
        exact ih seen
      · rw [if_neg hs]
        simp only [List.map_cons, List.nodup_cons]
        constructor
        · intro hmem
          rcases List.mem_map.mp hmem with ⟨r, hr, hid⟩
          have := refineRulesAux_notin_seen vmap rest (rule.rule_id :: seen) r hr
          rw [adjustRuleNode_rule_id] at hid
          exact this (hid ▸ List.mem_cons_self _ _)
        · exact ih (rule.rule_id :: seen)

/-- On a list with pairwise distinct ids disjoint from the seen set, the
refiner loop drops nothing and just adjusts each rule. -/
theorem refineRulesAux_of_nodup (vmap : String → Option ValidationResult) :
    ∀ (rules : List DQRule) (seen : List String),
      ((rules.map (fun r => r.rule_id)).Nodup) →
      (∀ r ∈ rules, r.rule_id ∉ seen) →
      refineRulesAux vmap rules seen = rules.map (adjustRuleNode vmap) := by
  intro rules
  induction rules with
  | nil => intro seen _ _; rfl
  | cons rule rest ih =>
      intro seen hnd hout
      unfold refineRulesAux
      rw [if_neg (hout rule (List.mem_cons_self _ _))]
      simp only [List.map_cons, List.nodup_cons] at hnd
      rw [ih (rule.rule_id :: seen) hnd.2 ?_]
      · rfl
      · intro r hr
        intro hin
        rcases List.mem_cons.mp hin with h | h
        · exact hnd.1 (List.mem_map.mpr ⟨r, hr, h⟩)
        · exact hout r (List.mem_cons_of_mem _ hr) h

/-- C6 (amended): the Refiner applied a second time to its own output
(same validation-results map) returns that output unchanged provided no
once-refined rule still triggers the raise branch (actual fail rate above
1.5 times its adjusted threshold); deduplication alone is always
idempotent, but a rule that re-triggers the raise branch has the
provenance note re-appended, so unconditional idempotence fails. -/
theorem refiner_conditionally_idempotent (vmap : String → Option ValidationResult)
    (rules : List DQRule)
    (h : ∀ r ∈ refine_rules_node vmap rules, ∀ result, vmap r.rule_id = some result →
        ¬ (r.threshold_percent * 1.5 < 100 - result.pass_rate)) :
    refine_rules_node vmap (refine_rules_node vmap rules) = refine_rules_node vmap rules := by
  have hnd := refineRulesAux_ids_nodup vmap rules []
  have hout : ∀ r ∈ refine_rules_node vmap rules, r.rule_id ∉ ([] : List String) := by
    intro r _ hin
    exact absurd hin (List.not_mem_nil _)
  unfold refine_rules_node
  rw [refineRulesAux_of_nodup vmap (refineRulesAux vmap rules []) [] hnd hout]
  have hfix : ∀ r ∈ refineRulesAux vmap rules [], adjustRuleNode vmap r = r := by
    intro r hr
    unfold adjustRuleNode
    cases hv : vmap r.rule_id with
    | none => rfl
    | some result =>
        show (if r.threshold_percent * 1.5 < 100 - result.pass_rate then
            { r with
                threshold_percent := min (roundTo 1 ((100 - result.pass_rate) * 1.1)) 100,
                derived_from := r.derived_from ++ " (threshold adjusted)" }
          else r) = r
        rw [if_neg (h r hr result hv)]
  calc (refineRulesAux vmap rules []).map (adjustRuleNode vmap)
      = (refineRulesAux vmap rules []).map id := List.map_congr_left hfix
    _ = refineRulesAux vmap rules [] := List.map_id _

/-- C6 (counterexample): with declared threshold 0.02 and an
engine-producible pass rate of 99.96 (fail rate 0.04), the raise branch
fires on both passes (the adjusted threshold rounds to 0.0), so the
second refinement appends the provenance note again and the output
changes: the Refiner is not idempotent as claimed. -/
theorem refiner_not_idempotent_cex :
    refine_rules_node vmapTight (refine_rules_node vmapTight [ruleTight]) ≠
      refine_rules_node vmapTight [ruleTight] := by
  have h1 : vmapTight ruleTight.rule_id = some resTight := rfl
  have h2 : vmapTight ruleTightAdj.rule_id = some resTight := rfl
  have htrig1 : ruleTight.threshold_percent * 1.5 < 100 - resTight.pass_rate := by
    norm_num [ruleTight, resTight]
  have hround : roundTo 1 ((100 - resTight.pass_rate) * 1.1) = 0 := by
    have hv : ((100 - resTight.pass_rate) * 1.1) * (10 : ℚ) ^ (1 : ℕ) = 11/25 := by
      norm_num [resTight]
    have hr : round ((11 : ℚ)/25) = 0 := by
      rw [round_eq]
      rw [Int.floor_eq_zero_iff]
      constructor <;> norm_num
    unfold roundTo
    rw [hv, hr]
    norm_num
  have htrig2 : ruleTightAdj.threshold_percent * 1.5 < 100 - resTight.pass_rate := by
    show (min (roundTo 1 ((100 - resTight.pass_rate) * 1.1)) 100) * 1.5 <
      100 - resTight.pass_rate
    rw [hround]
    norm_num [resTight]
  have hadj1 : adjustRuleNode vmapTight ruleTight = ruleTightAdj := by
    unfold adjustRuleNode
    rw [h1]
    show (if ruleTight.threshold_percent * 1.5 < 100 - resTight.pass_rate then ruleTightAdj
      else ruleTight) = ruleTightAdj
    rw [if_pos htrig1]
  have hadj2 : adjustRuleNode vmapTight ruleTightAdj = ruleTightAdj2 := by
    unfold adjustRuleNode
    rw [h2]
    show (if ruleTightAdj.threshold_percent * 1.5 < 100 - resTight.pass_rate then ruleTightAdj2
      else ruleTightAdj) = ruleTightAdj2
    rw [if_pos htrig2]
  have hstep : ∀ r : DQRule, refine_rules_node vmapTight [r] = [adjustRuleNode vmapTight r] := by
    intro r
    unfold refine_rules_node refineRulesAux
    simp
    rfl
  rw [hstep, hadj1, hstep, hadj2]
  intro heq
  simp only [List.cons.injEq, and_true] at heq
  have hd := congrArg DQRule.derived_from heq
  have hlen := congrArg String.length hd
  simp only [ruleTightAdj2, ruleTightAdj, String.length_append] at hlen
  have ht : (" (threshold adjusted)" : String).length = 21 := rfl
  rw [ht] at hlen
  omega

/-- C6 (witness): with an empty validation map (no rule triggers any
branch) the Refiner is idempotent on a list with duplicates. -/
theorem refiner_conditionally_idempotent_witness :
    refine_rules_node vmapNone (refine_rules_node vmapNone [ruleTight, ruleTight, ruleWide]) =
      refine_rules_node vmapNone [ruleTight, ruleTight, ruleWide] :=
  refiner_conditionally_idempotent vmapNone [ruleTight, ruleTight, ruleWide]
    (fun _ _ _ hres => nomatch hres)

/-- C8: a batch always yields exactly one ValidationResult per input
rule, at the matching position, whatever the per-rule execution body
does; a rule whose execution raises is converted to a zero-pass
zero-fail result carrying the error text, and this never disturbs the
results of sibling rules. -/
theorem batch_error_isolation (df : DataFrame)
    (exec : DQRule → Except String (Option DataFrame)) (rules : List DQRule) :
    (validateAllRulesE df exec rules).length = rules.length
    ∧ (∀ (i : ℕ) (rule : DQRule), rules[i]? = some rule →
        (validateAllRulesE df exec rules)[i]? = some (validateRuleE df exec rule))
    ∧ (∀ rule e, exec rule = Except.error e →
        validateRuleE df exec rule =
          ⟨rule.rule_id, 0, 0, 0, [FailureRecord.errorText e]⟩) := by
  refine ⟨List.length_map rules _, ?_, ?_⟩
  · intro i rule h
    unfold validateAllRulesE
    rw [List.getElem?_map, h]
    rfl
  · intro rule e h
    unfold validateRuleE
    rw [h]

/-- C8 (witness): a two-rule batch where the first execution raises:
the first result carries the error text, the second is still produced,
and the batch has exactly two results. -/
theorem batch_error_isolation_witness :
    (([ruleNotNullX, ruleNotNullY] : List DQRule)[0]? = some ruleNotNullX)
    ∧ (([ruleNotNullX, ruleNotNullY] : List DQRule)[1]? = some ruleNotNullY)
    ∧ (execBoom ruleNotNullX = Except.error "boom")
    ∧ ((validateAllRulesE dfOneRow execBoom [ruleNotNullX, ruleNotNullY])[0]? =
        some (validateRuleE dfOneRow execBoom ruleNotNullX))
    ∧ ((validateAllRulesE dfOneRow execBoom [ruleNotNullX, ruleNotNullY])[1]? =
        some (validateRuleE dfOneRow execBoom ruleNotNullY))
    ∧ (validateRuleE dfOneRow execBoom ruleNotNullX =
        ⟨"DQ_X_COM_001", 0, 0, 0, [FailureRecord.errorText "boom"]⟩)
    ∧ (validateAllRulesE dfOneRow execBoom [ruleNotNullX, ruleNotNullY]).length = 2 := by
  have hx : execBoom ruleNotNullX = Except.error "boom" := rfl
  refine ⟨rfl, rfl, hx, ?_, ?_, ?_, ?_⟩
  · exact (batch_error_isolation dfOneRow execBoom [ruleNotNullX, ruleNotNullY]).2.1
      0 ruleNotNullX rfl
  · exact (batch_error_isolation dfOneRow execBoom [ruleNotNullX, ruleNotNullY]).2.1
      1 ruleNotNullY rfl
  · exact (batch_error_isolation dfOneRow execBoom [ruleNotNullX, ruleNotNullY]).2.2
      ruleNotNullX "boom" hx
  · exact (batch_error_isolation dfOneRow execBoom [ruleNotNullX, ruleNotNullY]).1

/-- The fallback loop collects exactly the first remaining usable
attributes, in raw order. -/
theorem fallbackAttrs_take (n : ℕ) :
    ∀ (stats : List (String × AttrStats)) (k : ℕ), k < n →
      fallbackAttrs n stats k =
        ((stats.filter (fun p => usableAttr p.2)).map Prod.fst).take (n - k) := by
  intro stats
  induction stats with
  | nil => intro k _; simp [fallbackAttrs]
  | cons p rest ih =>
      intro k hk
      obtain ⟨a, st⟩ := p
      by_cases hu : usableAttr st
      · have hnk : n - k = (n - (k + 1)) + 1 := by omega
        unfold fallbackAttrs
        rw [List.filter_cons_of_pos (by simpa using hu)]
        simp only [List.map_cons]
        rw [hnk, List.take_succ_cons]
        rw [if_pos hu]
        by_cases hstop : n ≤ k + 1
        · rw [if_pos hstop]
          have : n - (k + 1) = 0 := by omega
          rw [this, List.take_zero]
        · rw [if_neg hstop]
          rw [ih (k + 1) (by omega)]
      · unfold fallbackAttrs
        rw [List.filter_cons_of_neg (by simpa using hu)]
        rw [if_neg hu]
        exact ih k hk

/-- C9: when the allow-list intersection yields zero usable matches
(including the allow-list-unavailable case, where the intersection is
empty), the prioritizer returns the first n attributes, in raw profiling
order, whose datatype is not Empty and whose missing percentage is below
100, n being the configured maximum count (at least 1; the configured
DEFAULT_ATTRIBUTE_COUNT is 15). -/
theorem prioritizer_fallback (profilingStats : List (String × AttrStats))
    (available : List String) (n : ℕ) (hn : 1 ≤ n)
    (hempty : validatedAttrs profilingStats available = []) :
    select_priority_attributes_node profilingStats available n =
      ((profilingStats.filter (fun p => usableAttr p.2)).map Prod.fst).take n := by
  unfold select_priority_attributes_node
  rw [hempty]
  simp only [List.isEmpty_nil, if_true]
  have := fallbackAttrs_take n profilingStats 0 (by omega)
  simpa using this

/-- C9 (witness): a five-attribute profile with an Empty and a fully
missing attribute, an allow-list matching nothing, bound 2. -/
theorem prioritizer_fallback_witness :
    (validatedAttrs statsSample ["zz"] = [])
    ∧ select_priority_attributes_node statsSample ["zz"] 2 =
        ((statsSample.filter (fun p => usableAttr p.2)).map Prod.fst).take 2 :=
  ⟨by decide, prioritizer_fallback statsSample ["zz"] 2 (by decide) (by decide)⟩

set_option maxHeartbeats 1000000 in
/-- For the eight built-in rule types, the failing subset is a filter of
the sample rows (or the empty fallback), so its size never exceeds the
number of sample rows. -/
theorem executeRuleBranch_rows_le (env : PyEnv) (df : DataFrame) (rule : DQRule)
    (h : rule.rule_type ∈ builtinRuleTypes) :
    (executeRuleBranch env df rule).rows.length ≤ df.rows.length := by
  have hle : ∀ (p : Row → Bool), (df.rows.filter p).length ≤ df.rows.length :=
    fun p => List.length_filter_le p df.rows
  have hemp : (emptyDataFrame.rows.length ≤ df.rows.length) := by
    simp [emptyDataFrame]
  simp only [builtinRuleTypes, List.mem_cons, List.not_mem_nil, or_false] at h
  rcases h with h|h|h|h|h|h|h|h <;>
    (simp only [executeRuleBranch, h]
     split_ifs <;>
       first
       | exact hle _
       | exact hemp
       | exact absurd rfl (by assumption)
       | (split <;>
           first
           | exact hle _
           | exact hemp
           | (split_ifs <;>
               first
               | exact hle _
               | exact hemp)))

/-- C10: for a rule of one of the eight built-in types whose attribute
is a column of the sample relation, the result satisfies
passCount + failCount = number of sample rows, failCount at most the
number of sample rows, and passCount non-negative. -/
theorem builtin_counts_invariant (env : PyEnv) (df : DataFrame) (rule : DQRule)
    (h1 : rule.rule_type ∈ builtinRuleTypes)
    (h2 : rule.attribute_name ∈ df.columns) :
    (validate_rule env df rule).pass_count + ((validate_rule env df rule).fail_count : ℤ) =
      (df.rows.length : ℤ)
    ∧ (validate_rule env df rule).fail_count ≤ df.rows.length
    ∧ 0 ≤ (validate_rule env df rule).pass_count := by
  have hle := executeRuleBranch_rows_le env df rule h1
  unfold validate_rule execute_python_rule
  rw [if_pos h2]
  unfold validateRuleCore
  refine ⟨?_, ?_, ?_⟩ <;> simp <;> omega

/-- C10 (witness): NOT_NULL rule on the one-row relation. -/
theorem builtin_counts_invariant_witness :
    (ruleNotNullX.rule_type ∈ builtinRuleTypes)
    ∧ (ruleNotNullX.attribute_name ∈ dfOneRow.columns)
    ∧ ((validate_rule sampleEnv dfOneRow ruleNotNullX).pass_count +
        ((validate_rule sampleEnv dfOneRow ruleNotNullX).fail_count : ℤ) =
          (dfOneRow.rows.length : ℤ))
    ∧ (validate_rule sampleEnv dfOneRow ruleNotNullX).fail_count ≤ dfOneRow.rows.length :=
  ⟨by decide, by decide,
    (builtin_counts_invariant sampleEnv dfOneRow ruleNotNullX (by decide) (by decide)).1,
    (builtin_counts_invariant sampleEnv dfOneRow ruleNotNullX (by decide) (by decide)).2.1⟩
